import Mathlib

/-!
Shallow embedding of `torchdrug/models/infograph.py`: the two self-supervised
models `InfoGraph` and `MultiviewContrast`.

Modelling conventions:
* Tensors are lists of rows; scalars are `ℚ` for `InfoGraph` (whose numeric
  kernels — the mutual-information estimator layers — are external collaborators
  and hence abstract fields) and `ℝ` for `MultiviewContrast` (whose loss is
  computed inline from cosine similarity / log-sum-exp).
* The external encoder (`self.model`), the mutual-information estimator layers
  (`layers.MutualInformation`) and the projector (`layers.MLP`) are not defined
  in the translated file, so they appear as abstract function-valued fields of
  the module structures, exactly at the call positions the Python code uses.
* The caller-supplied mutable loss accumulator (`all_loss`) and metric dict
  (`metric`) are threaded explicitly: `forward` returns the encoder output
  together with the post-call accumulator and metric states.  A Python dict
  write `metric[k] = v` on `metric = None` raises `TypeError`; this is the
  `Except` error path of `metricWrite`.
* Python's `random.sample(lst, 1)[0]` is derandomized by an injected natural
  seed: `sample1 lst r` returns element `r % len lst` and fails on the empty
  list exactly where `random.sample` raises `ValueError`.
* `graph.num_node` and `graph.node2graph` satisfy the batching invariant
  `num_node = len node2graph`; we model `num_node` as the derived length.
-/

namespace Infograph

/-- A batched graph as `InfoGraph.forward` consumes it: `num_graph` graphs,
with `node2graph` assigning each node (in order) to its containing graph. -/
structure GraphI where
  num_graph : ℕ
  node2graph : List ℕ
deriving DecidableEq

/-- Number of nodes in the batch (`graph.num_node`): the length of the
node-to-graph assignment. -/
def GraphI.num_node (g : GraphI) : ℕ := g.node2graph.length

/-- Output mapping of an encoder over `ℚ`-valued features: the
`{"node_feature": ..., "graph_feature": ...}` dict. -/
structure EncOutQ where
  node_feature : List (List ℚ)
  graph_feature : List (List ℚ)
deriving DecidableEq

/-- A metric mapping (Python dict) as an association list; a fresh write is
consed on and `List.lookup` returns the latest value for a key. -/
abbrev MetricMap (α : Type) := List (String × α)

/-- Python `metric[k] = v`: fails with `TypeError` when the optional metric
dict was not supplied (`metric is None`), otherwise records the entry. -/
def metricWrite {α : Type} (metric : Option (MetricMap α)) (k : String) (v : α) :
    Except String (MetricMap α) :=
  match metric with
  | none => .error "TypeError: NoneType object does not support item assignment"
  | some m => .ok ((k, v) :: m)

/-- The `InfoGraph` module.  `model` / `unsupervised_model` are the primary and
unsupervised encoders; `transfer_mi` / `unsupervised_mi` are the two
`layers.MutualInformation` estimator sub-modules (external collaborators,
abstract here); `loss_weight` and `separate_model` are the configuration
recorded by `__init__`. -/
structure InfoGraph where
  model : GraphI → List (List ℚ) → EncOutQ
  unsupervised_model : GraphI → List (List ℚ) → EncOutQ
  transfer_mi : List (List ℚ) → List (List ℚ) → ℚ
  unsupervised_mi : List (List ℚ) → List (List ℚ) → List (ℕ × ℕ) → ℚ
  loss_weight : ℚ
  separate_model : Bool

/-- Translation of `InfoGraph.forward(self, graph, input, all_loss=None,
metric=None)`.  Returns the primary encoder output together with the
post-call states of the loss accumulator and the metric dict. -/
def InfoGraph.forward (self : InfoGraph) (graph : GraphI) (input : List (List ℚ))
    (all_loss : Option ℚ) (metric : Option (MetricMap ℚ)) :
    Except String (EncOutQ × Option ℚ × Option (MetricMap ℚ)) :=
  let output := self.model graph input
  match all_loss with
  | none => .ok (output, none, metric)
  | some loss₀ => do
    let (unsupervised_output, loss₁, metric₁) ←
      if self.separate_model then do
        let unsupervised_output := self.unsupervised_model graph input
        let mutual_info := self.transfer_mi output.graph_feature unsupervised_output.graph_feature
        let m ← metricWrite metric "distillation mutual information" mutual_info
        let l := if self.loss_weight > 0 then loss₀ - mutual_info * self.loss_weight else loss₀
        pure (unsupervised_output, l, some m)
      else
        pure (output, loss₀, metric)
    let graph_index := graph.node2graph
    let node_index := List.range graph.num_node
    let pair_index := graph_index.zip node_index
    let mutual_info := self.unsupervised_mi unsupervised_output.graph_feature
        unsupervised_output.node_feature pair_index
    let m ← metricWrite metric₁ "graph-node mutual information" mutual_info
    let loss₂ := if self.loss_weight > 0 then loss₁ - mutual_info * self.loss_weight else loss₁
    .ok (output, some loss₂, some m)

/-- A batched graph as `MultiviewContrast.forward` consumes it.  The `input`
field is the node-attribute slot that `forward` fills via
`with graph.residue(): graph.input = input` on a shallow copy; crop/noise
functions may transform it along with the structure. -/
structure GraphM where
  num_graph : ℕ
  node2graph : List ℕ
  input : List (List ℝ)

/-- Number of nodes of a `GraphM` batch. -/
def GraphM.num_node (g : GraphM) : ℕ := g.node2graph.length

/-- Output mapping of an encoder over `ℝ`-valued features. -/
structure EncOutR where
  node_feature : List (List ℝ)
  graph_feature : List (List ℝ)

/-- The output dict of `MultiviewContrast.forward`: node and graph features of
the two augmented views under distinct keys. -/
structure MVOut where
  node_feature1 : List (List ℝ)
  graph_feature1 : List (List ℝ)
  node_feature2 : List (List ℝ)
  graph_feature2 : List (List ℝ)

/-- Derandomized `random.sample(lst, 1)[0]`: the injected seed `r` selects
element `r % len lst`; on the empty list it fails exactly where `random.sample`
raises `ValueError`. -/
def sample1 {α : Type} (l : List α) (r : ℕ) : Except String α :=
  match l with
  | [] => .error "ValueError: Sample larger than population or is negative"
  | x :: xs => .ok ((x :: xs).getD (r % (x :: xs).length) x)

/-- Row dot product. -/
noncomputable def dotP (x y : List ℝ) : ℝ := (List.zipWith (fun a b => a * b) x y).sum

/-- Euclidean norm of a row. -/
noncomputable def l2norm (x : List ℝ) : ℝ := Real.sqrt ((x.map (fun a => a * a)).sum)

/-- Numerical-stability floor of `torch.nn.functional.cosine_similarity`
(its default `eps`; the unused class attribute `MultiviewContrast.eps = 1e-10`
does not enter `forward`). -/
noncomputable def cosineEps : ℝ := 1e-8

/-- Mathematical reading of `F.cosine_similarity` on a pair of rows:
inner product over the clamped product of Euclidean norms. -/
noncomputable def cosineSimilarity (x y : List ℝ) : ℝ :=
  dotP x y / max (l2norm x * l2norm y) cosineEps

/-- Log-sum-exp of a row, as `Tensor.logsumexp(dim=-1)` computes it. -/
noncomputable def logsumexp (l : List ℝ) : ℝ := Real.log ((l.map Real.exp).sum)

/-- Mean of a list of scalars (`Tensor.mean()`). -/
noncomputable def listMean (l : List ℝ) : ℝ := l.sum / l.length

/-- The broadcast similarity matrix
`F.cosine_similarity(x.unsqueeze(1), y.unsqueeze(0), dim=-1) / tau`:
entry `(i, j)` scores projected embedding `i` of view 1 against projected
embedding `j` of view 2, scaled by inverse temperature. -/
noncomputable def multiviewScore (x y : List (List ℝ)) (tau : ℝ) : List (List ℝ) :=
  x.map (fun xi => y.map (fun yj => cosineSimilarity xi yj / tau))

/-- The InfoNCE estimate `(score[is_positive] - score.logsumexp(dim=-1)).mean()`:
for each sample, the diagonal entry minus the log-sum-exp of its row, averaged.
(The boolean diagonal mask of the Python code presumes a square score matrix —
the two views carry the same number of graphs — which is the only case in which
the tensor indexing does not raise; out-of-range `getD` defaults never arise
there.) -/
noncomputable def multiviewMutualInfo (x y : List (List ℝ)) (tau : ℝ) : ℝ :=
  let score := multiviewScore x y tau
  listMean ((List.range x.length).map (fun i =>
    (score.getD i []).getD i 0 - logsumexp (score.getD i [])))

/-- The `MultiviewContrast` module: shared encoder, the configured lists of
cropping and noise functions, temperature, and the `layers.MLP` projector
(an external collaborator, abstract here, applied row-wise). -/
structure MultiviewContrast where
  model : GraphM → List (List ℝ) → EncOutR
  crop_funcs : List (GraphM → GraphM)
  noise_funcs : List (GraphM → GraphM)
  tau : ℝ
  mlp : List ℝ → List ℝ

/-- Translation of `MultiviewContrast.forward(self, graph, input,
all_loss=None, metric=None)`.  The four seed components derandomize the four
`random.sample` calls in program order: crop and noise for view 1, then crop
and noise for view 2. -/
noncomputable def MultiviewContrast.forward (self : MultiviewContrast) (graph : GraphM)
    (input : List (List ℝ)) (all_loss : Option ℝ) (metric : Option (MetricMap ℝ))
    (rand : ℕ × ℕ × ℕ × ℕ) :
    Except String (MVOut × Option ℝ × Option (MetricMap ℝ)) := do
  let graph := { graph with input := input }
  let crop_func1 ← sample1 self.crop_funcs rand.1
  let noise_func1 ← sample1 self.noise_funcs rand.2.1
  let graph1 := noise_func1 (crop_func1 graph)
  let output1 := self.model graph1 graph1.input
  let crop_func2 ← sample1 self.crop_funcs rand.2.2.1
  let noise_func2 ← sample1 self.noise_funcs rand.2.2.2
  let graph2 := noise_func2 (crop_func2 graph)
  let output2 := self.model graph2 graph2.input
  let (lossOut, metricOut) ←
    match all_loss with
    | none => pure ((none : Option ℝ), metric)
    | some l => do
      let x := output1.graph_feature.map self.mlp
      let y := output2.graph_feature.map self.mlp
      let mutual_info := multiviewMutualInfo x y self.tau
      let m ← metricWrite metric "multiview mutual information" mutual_info
      pure (some (l - mutual_info), some m)
  .ok (⟨output1.node_feature, output1.graph_feature,
        output2.node_feature, output2.graph_feature⟩, lossOut, metricOut)

/-- Extracts the post-call loss accumulator of an `InfoGraph.forward` result
(`none` on the error path). -/
def lossOfQ (r : Except String (EncOutQ × Option ℚ × Option (MetricMap ℚ))) :
    Option (Option ℚ) :=
  match r with
  | .ok (_, l, _) => some l
  | .error _ => none

/-- Extracts the post-call metric mapping of an `InfoGraph.forward` result
(`none` on the error path). -/
def metricOfQ (r : Except String (EncOutQ × Option ℚ × Option (MetricMap ℚ))) :
    Option (Option (MetricMap ℚ)) :=
  match r with
  | .ok (_, _, m) => some m
  | .error _ => none

/-- Extracts the output dict of a `MultiviewContrast.forward` result. -/
def mvOut (r : Except String (MVOut × Option ℝ × Option (MetricMap ℝ))) : Option MVOut :=
  match r with
  | .ok (o, _, _) => some o
  | .error _ => none

/-- Concrete `InfoGraph` whose unsupervised estimator reports a negative
mutual-information score (a value the learned estimator can produce): used to
probe the strict-decrease reading of the loss update. -/
def cfgStrict : InfoGraph :=
  ⟨fun g _ => ⟨List.replicate g.num_node [1], List.replicate g.num_graph [2]⟩,
   fun g _ => ⟨List.replicate g.num_node [1], List.replicate g.num_graph [2]⟩,
   fun _ _ => 0, fun _ _ _ => -1, 1, false⟩

/-- Concrete encoder honouring the shape contract: one (empty) feature row per
node and per graph of its input graph. -/
def cexModel (g : GraphM) (_i : List (List ℝ)) : EncOutR :=
  ⟨List.replicate g.num_node [], List.replicate g.num_graph []⟩

/-- Concrete cropping function that drops every node of the batch. -/
def cexCrop (g : GraphM) : GraphM := ⟨g.num_graph, [], []⟩

/-- Concrete `MultiviewContrast` built from `cexModel` and `cexCrop` with an
identity noise function. -/
noncomputable def cexMV : MultiviewContrast := ⟨cexModel, [cexCrop], [id], 1, id⟩

/-- One-graph, one-node batch fed to `cexMV`. -/
def cexGraph : GraphM := ⟨1, [0], []⟩

end Infograph

namespace Infograph

theorem exceptBind_ok {ε α β : Type} (a : α) (f : α → Except ε β) :
    (Except.ok a >>= f) = f a := rfl

theorem exceptBind_error {ε α β : Type} (e : ε) (f : α → Except ε β) :
    ((Except.error e : Except ε α) >>= f) = Except.error e := rfl

theorem exceptPure {ε α : Type} (a : α) : (pure a : Except ε α) = Except.ok a := rfl

/-- Every success of `InfoGraph.forward` carries the primary encoder's output
as its first component. -/
theorem forward_ok_output (self : InfoGraph) (g : GraphI) (inp : List (List ℚ))
    (al : Option ℚ) (mt : Option (MetricMap ℚ)) (out : EncOutQ) (l : Option ℚ)
    (m : Option (MetricMap ℚ))
    (h : self.forward g inp al mt = .ok (out, l, m)) : out = self.model g inp := by
  cases al with
  | none =>
    simp only [InfoGraph.forward, Except.ok.injEq, Prod.mk.injEq] at h
    exact h.1.symm
  | some l₀ =>
    cases hb : self.separate_model <;> cases mt <;>
      simp only [InfoGraph.forward, metricWrite, hb, if_true, if_false,
        exceptBind_ok, exceptBind_error, exceptPure, Bool.false_eq_true,
        reduceIte, Except.ok.injEq, Prod.mk.injEq] at h
    all_goals first
      | exact h.1.symm
      | simp at h

/-- C4: every `InfoGraph.forward` call that returns does so with exactly the
primary encoder's output `self.model graph input` as its output mapping,
unaffected by the supplied accumulator, the loss weight, or the
`separate_model` configuration. -/
theorem infoGraph_returns_primary_output (self : InfoGraph) (g : GraphI)
    (inp : List (List ℚ)) (al : Option ℚ) (mt : Option (MetricMap ℚ))
    (out : EncOutQ) (l : Option ℚ) (m : Option (MetricMap ℚ))
    (h : self.forward g inp al mt = .ok (out, l, m)) :
    out = self.model g inp :=
  forward_ok_output self g inp al mt out l m h

theorem infoGraph_returns_primary_output_witness :
    (⟨[[1], [1], [1]], [[2], [2]]⟩ : EncOutQ) =
      cfgStrict.model ⟨2, [0, 0, 1]⟩ [[1], [1], [1]] :=
  infoGraph_returns_primary_output cfgStrict ⟨2, [0, 0, 1]⟩ [[1], [1], [1]]
    none none ⟨[[1], [1], [1]], [[2], [2]]⟩ none none (by rfl)

/-- C1 (amended): with an accumulator supplied, `InfoGraph.forward` always
records each computed mutual-information score in the metric mapping; when
`loss_weight > 0` the accumulator becomes `old - score * loss_weight` for each
term (the transfer term only when `separate_model` is set, the graph-node term
always) — a strict decrease exactly when the weighted score is positive — and
when `loss_weight ≤ 0` the accumulator is unchanged. -/
theorem infoGraph_loss_weight_gating
    (M U : GraphI → List (List ℚ) → EncOutQ)
    (tmi : List (List ℚ) → List (List ℚ) → ℚ)
    (umi : List (List ℚ) → List (List ℚ) → List (ℕ × ℕ) → ℚ)
    (w : ℚ) (g : GraphI) (inp : List (List ℚ)) (l : ℚ) (m : MetricMap ℚ) :
    (InfoGraph.forward ⟨M, U, tmi, umi, w, false⟩ g inp (some l) (some m) =
      .ok (M g inp,
        some (if 0 < w then
            l - umi (M g inp).graph_feature (M g inp).node_feature
                  (g.node2graph.zip (List.range g.num_node)) * w
          else l),
        some (("graph-node mutual information",
               umi (M g inp).graph_feature (M g inp).node_feature
                 (g.node2graph.zip (List.range g.num_node))) :: m)))
    ∧
    (InfoGraph.forward ⟨M, U, tmi, umi, w, true⟩ g inp (some l) (some m) =
      .ok (M g inp,
        some (if 0 < w then
            l - tmi (M g inp).graph_feature (U g inp).graph_feature * w
              - umi (U g inp).graph_feature (U g inp).node_feature
                  (g.node2graph.zip (List.range g.num_node)) * w
          else l),
        some (("graph-node mutual information",
               umi (U g inp).graph_feature (U g inp).node_feature
                 (g.node2graph.zip (List.range g.num_node))) ::
              ("distillation mutual information",
               tmi (M g inp).graph_feature (U g inp).graph_feature) :: m))) := by
  constructor <;> by_cases hw : 0 < w <;>
    simp [InfoGraph.forward, metricWrite, exceptBind_ok, exceptPure, hw]

/-- C1 is false as frozen: `cfgStrict` has `loss_weight = 1 > 0`, yet on a
call with accumulator `0` the accumulator ends at `1` (the estimator returned
`-1`), and `1 < 0` is false — the update is not a strict decrease. -/
theorem infoGraph_strict_decrease_counterexample :
    0 < cfgStrict.loss_weight ∧
    lossOfQ (InfoGraph.forward cfgStrict ⟨2, [0, 0, 1]⟩ [[1], [1], [1]]
      (some 0) (some [])) = some (some 1) ∧
    ¬ ((1 : ℚ) < 0) := by
  refine ⟨by norm_num [cfgStrict], ?_, by norm_num⟩
  norm_num [cfgStrict, InfoGraph.forward, metricWrite, lossOfQ,
    exceptBind_ok, exceptPure]

theorem zip_range'_eq_map (a : List ℕ) : ∀ k : ℕ,
    a.zip (List.range' k a.length) =
      (List.range a.length).map (fun i => (a.getD i 0, k + i)) := by
  induction a with
  | nil => intro k; rfl
  | cons x t ih =>
    intro k
    show (x, k) :: t.zip (List.range' (k + 1) t.length) = _
    rw [List.length_cons, List.range_succ_eq_map, ih (k + 1)]
    simp only [List.map_cons, List.map_map, List.getD_cons_zero, Nat.add_zero]
    refine congrArg (fun s => (x, k) :: s)
      (congrArg (fun f => List.map f (List.range t.length)) ?_)
    funext i
    simp only [Function.comp_apply, List.getD_cons_succ, Prod.mk.injEq]
    exact ⟨trivial, by omega⟩

theorem zip_range_eq_map (a : List ℕ) :
    a.zip (List.range a.length) =
      (List.range a.length).map (fun i => (a.getD i 0, i)) := by
  have h := zip_range'_eq_map a 0
  simp only [Nat.zero_add] at h
  conv_lhs => rw [List.range_eq_range']
  exact h

/-- C6: in an `InfoGraph.forward` call with an accumulator, the pair index
handed to the unsupervised mutual-information estimator is
`node2graph.zip (range num_node)` — row `i` being `(node2graph[i], i)` — in
both `separate_model` configurations. -/
theorem infoGraph_pair_index
    (M U : GraphI → List (List ℚ) → EncOutQ)
    (tmi : List (List ℚ) → List (List ℚ) → ℚ)
    (umi : List (List ℚ) → List (List ℚ) → List (ℕ × ℕ) → ℚ)
    (w : ℚ) (g : GraphI) (inp : List (List ℚ)) (l : ℚ) (m : MetricMap ℚ) :
    (metricOfQ (InfoGraph.forward ⟨M, U, tmi, umi, w, false⟩ g inp (some l) (some m)) =
      some (some (("graph-node mutual information",
        umi (M g inp).graph_feature (M g inp).node_feature
          ((List.range g.num_node).map (fun i => (g.node2graph.getD i 0, i)))) :: m)))
    ∧
    (metricOfQ (InfoGraph.forward ⟨M, U, tmi, umi, w, true⟩ g inp (some l) (some m)) =
      some (some (("graph-node mutual information",
        umi (U g inp).graph_feature (U g inp).node_feature
          ((List.range g.num_node).map (fun i => (g.node2graph.getD i 0, i)))) ::
        ("distillation mutual information",
         tmi (M g inp).graph_feature (U g inp).graph_feature) :: m)))
    ∧
    g.node2graph.zip (List.range g.num_node) =
      (List.range g.num_node).map (fun i => (g.node2graph.getD i 0, i)) := by
  have hz : g.node2graph.zip (List.range g.num_node) =
      (List.range g.num_node).map (fun i => (g.node2graph.getD i 0, i)) :=
    zip_range_eq_map g.node2graph
  refine ⟨?_, ?_, hz⟩ <;>
    simp only [InfoGraph.forward, metricWrite, metricOfQ, exceptBind_ok, exceptPure,
      Bool.false_eq_true, reduceIte, if_true, if_false, Option.some.injEq,
      Prod.mk.injEq, List.cons.injEq, ← hz]

/-- C7: with `separate_model` unset, an `InfoGraph.forward` call leaves the
entry at key "distillation mutual information" untouched, whether or not an
accumulator is supplied, while the graph-node entry is the one written. -/
theorem infoGraph_no_distillation_metric
    (M U : GraphI → List (List ℚ) → EncOutQ)
    (tmi : List (List ℚ) → List (List ℚ) → ℚ)
    (umi : List (List ℚ) → List (List ℚ) → List (ℕ × ℕ) → ℚ)
    (w : ℚ) (g : GraphI) (inp : List (List ℚ)) (l : ℚ) (m : MetricMap ℚ) :
    (InfoGraph.forward ⟨M, U, tmi, umi, w, false⟩ g inp none (some m) =
      .ok (M g inp, none, some m))
    ∧
    (metricOfQ (InfoGraph.forward ⟨M, U, tmi, umi, w, false⟩ g inp (some l) (some m)) =
      some (some (("graph-node mutual information",
        umi (M g inp).graph_feature (M g inp).node_feature
          (g.node2graph.zip (List.range g.num_node))) :: m)))
    ∧
    List.lookup "distillation mutual information"
        (("graph-node mutual information",
          umi (M g inp).graph_feature (M g inp).node_feature
            (g.node2graph.zip (List.range g.num_node))) :: m) =
      List.lookup "distillation mutual information" m := by
  refine ⟨?_, ?_, ?_⟩ <;>
    simp [InfoGraph.forward, metricWrite, metricOfQ, exceptBind_ok, exceptPure,
      List.lookup]

/-- C9: supplying an accumulator without a metric mapping makes the call fail
with the `TypeError` of an item assignment on `None`, in both models. -/
theorem metric_none_with_loss_errors
    (selfI : InfoGraph) (g : GraphI) (inp : List (List ℚ)) (l : ℚ)
    (M : GraphM → List (List ℝ) → EncOutR)
    (c : GraphM → GraphM) (cs : List (GraphM → GraphM))
    (nf : GraphM → GraphM) (nfs : List (GraphM → GraphM))
    (tau : ℝ) (proj : List ℝ → List ℝ) (gm : GraphM) (inpR : List (List ℝ))
    (lr : ℝ) (rand : ℕ × ℕ × ℕ × ℕ) :
    InfoGraph.forward selfI g inp (some l) none =
      .error "TypeError: NoneType object does not support item assignment" ∧
    MultiviewContrast.forward ⟨M, c :: cs, nf :: nfs, tau, proj⟩ gm inpR
        (some lr) none rand =
      .error "TypeError: NoneType object does not support item assignment" := by
  constructor
  · cases hb : selfI.separate_model <;>
      simp [InfoGraph.forward, metricWrite, hb, exceptBind_ok, exceptBind_error,
        exceptPure]
  · simp [MultiviewContrast.forward, sample1, metricWrite, exceptBind_ok,
      exceptBind_error, exceptPure]

/-- C3: an empty crop list (first conjunct pair) or an empty noise list
(second) makes `MultiviewContrast.forward` fail with the sampling
`ValueError`, and the result is the same for every encoder — the failure
happens before any encoder invocation. -/
theorem multiview_empty_funcs_fail
    (M M' : GraphM → List (List ℝ) → EncOutR)
    (noises : List (GraphM → GraphM)) (c : GraphM → GraphM)
    (cs : List (GraphM → GraphM)) (tau : ℝ) (proj : List ℝ → List ℝ)
    (gm : GraphM) (inpR : List (List ℝ)) (al : Option ℝ)
    (mt : Option (MetricMap ℝ)) (rand : ℕ × ℕ × ℕ × ℕ) :
    (MultiviewContrast.forward ⟨M, [], noises, tau, proj⟩ gm inpR al mt rand =
      .error "ValueError: Sample larger than population or is negative") ∧
    (MultiviewContrast.forward ⟨M, c :: cs, [], tau, proj⟩ gm inpR al mt rand =
      .error "ValueError: Sample larger than population or is negative") ∧
    (MultiviewContrast.forward ⟨M, [], noises, tau, proj⟩ gm inpR al mt rand =
      MultiviewContrast.forward ⟨M', [], noises, tau, proj⟩ gm inpR al mt rand) ∧
    (MultiviewContrast.forward ⟨M, c :: cs, [], tau, proj⟩ gm inpR al mt rand =
      MultiviewContrast.forward ⟨M', c :: cs, [], tau, proj⟩ gm inpR al mt rand) := by
  refine ⟨?_, ?_, ?_, ?_⟩ <;>
    simp [MultiviewContrast.forward, sample1, exceptBind_error, exceptBind_ok]

theorem dotP_nil_right (x : List ℝ) : dotP x [] = 0 := by
  simp [dotP]

theorem cosineSimilarity_nil_right (x : List ℝ) : cosineSimilarity x [] = 0 := by
  simp [cosineSimilarity, dotP_nil_right]

theorem getD_map_of_lt {α β : Type} (f : α → β) (l : List α) (i : ℕ)
    (h : i < l.length) (d : β) (d' : α) :
    (l.map f).getD i d = f (l.getD i d') := by
  rw [List.getD_eq_getElem?_getD, List.getD_eq_getElem?_getD, List.getElem?_map,
    List.getElem?_eq_getElem h]
  simp

/-- The InfoNCE estimate of the code, written the way the spec reads it:
for each sample `i`, the similarity of projected pair `(i, i)` over `tau`
minus the log-sum-exp of row `i` of the similarity matrix, averaged. -/
theorem multiviewMutualInfo_eq (x y : List (List ℝ)) (tau : ℝ) :
    multiviewMutualInfo x y tau =
      listMean ((List.range x.length).map (fun i =>
        cosineSimilarity (x.getD i []) (y.getD i []) / tau -
          logsumexp (y.map (fun yj => cosineSimilarity (x.getD i []) yj / tau)))) := by
  unfold multiviewMutualInfo multiviewScore
  refine congrArg listMean (List.map_congr_left ?_)
  intro i hi
  rw [List.mem_range] at hi
  have hrow : (x.map (fun xi => y.map (fun yj => cosineSimilarity xi yj / tau))).getD i [] =
      y.map (fun yj => cosineSimilarity (x.getD i []) yj / tau) :=
    getD_map_of_lt _ x i hi [] []
  rw [hrow]
  congr 1
  by_cases hy : i < y.length
  · exact getD_map_of_lt _ y i hy 0 []
  · have h1 : (List.map (fun yj => cosineSimilarity (x.getD i []) yj / tau) y)[i]? = none :=
      List.getElem?_eq_none (by simpa using Nat.le_of_not_lt hy)
    have h2 : y[i]? = none := List.getElem?_eq_none (Nat.le_of_not_lt hy)
    rw [List.getD_eq_getElem?_getD, h1, List.getD_eq_getElem?_getD y, h2]
    simp [cosineSimilarity_nil_right]

/-- C5: each view is built by independently selecting a crop and a noise
function (seed components `r1, r2` for view 1; fresh `r3, r4` for view 2) from
the configured lists, applying the crop and then the noise to the copy of the
batch carrying the attached input, and running the shared encoder on the
augmented graph with that graph's own attached input — with an accumulator
either absent (first conjunct) or supplied (second). -/
theorem multiview_view_construction
    (M : GraphM → List (List ℝ) → EncOutR) (c : GraphM → GraphM)
    (cs : List (GraphM → GraphM)) (n : GraphM → GraphM)
    (ns : List (GraphM → GraphM)) (tau : ℝ) (proj : List ℝ → List ℝ)
    (gm : GraphM) (inpR : List (List ℝ)) (mt : Option (MetricMap ℝ))
    (l : ℝ) (m : MetricMap ℝ) (r1 r2 r3 r4 : ℕ) :
    (MultiviewContrast.forward ⟨M, c :: cs, n :: ns, tau, proj⟩ gm inpR none mt
        (r1, r2, r3, r4) =
      .ok (⟨(M (((n :: ns).getD (r2 % (n :: ns).length) n)
                 (((c :: cs).getD (r1 % (c :: cs).length) c) { gm with input := inpR }))
               (((n :: ns).getD (r2 % (n :: ns).length) n)
                 (((c :: cs).getD (r1 % (c :: cs).length) c)
                   { gm with input := inpR })).input).node_feature,
            (M (((n :: ns).getD (r2 % (n :: ns).length) n)
                 (((c :: cs).getD (r1 % (c :: cs).length) c) { gm with input := inpR }))
               (((n :: ns).getD (r2 % (n :: ns).length) n)
                 (((c :: cs).getD (r1 % (c :: cs).length) c)
                   { gm with input := inpR })).input).graph_feature,
            (M (((n :: ns).getD (r4 % (n :: ns).length) n)
                 (((c :: cs).getD (r3 % (c :: cs).length) c) { gm with input := inpR }))
               (((n :: ns).getD (r4 % (n :: ns).length) n)
                 (((c :: cs).getD (r3 % (c :: cs).length) c)
                   { gm with input := inpR })).input).node_feature,
            (M (((n :: ns).getD (r4 % (n :: ns).length) n)
                 (((c :: cs).getD (r3 % (c :: cs).length) c) { gm with input := inpR }))
               (((n :: ns).getD (r4 % (n :: ns).length) n)
                 (((c :: cs).getD (r3 % (c :: cs).length) c)
                   { gm with input := inpR })).input).graph_feature⟩,
           none, mt)) ∧
    (mvOut (MultiviewContrast.forward ⟨M, c :: cs, n :: ns, tau, proj⟩ gm inpR
        (some l) (some m) (r1, r2, r3, r4)) =
      some ⟨(M (((n :: ns).getD (r2 % (n :: ns).length) n)
                 (((c :: cs).getD (r1 % (c :: cs).length) c) { gm with input := inpR }))
               (((n :: ns).getD (r2 % (n :: ns).length) n)
                 (((c :: cs).getD (r1 % (c :: cs).length) c)
                   { gm with input := inpR })).input).node_feature,
            (M (((n :: ns).getD (r2 % (n :: ns).length) n)
                 (((c :: cs).getD (r1 % (c :: cs).length) c) { gm with input := inpR }))
               (((n :: ns).getD (r2 % (n :: ns).length) n)
                 (((c :: cs).getD (r1 % (c :: cs).length) c)
                   { gm with input := inpR })).input).graph_feature,
            (M (((n :: ns).getD (r4 % (n :: ns).length) n)
                 (((c :: cs).getD (r3 % (c :: cs).length) c) { gm with input := inpR }))
               (((n :: ns).getD (r4 % (n :: ns).length) n)
                 (((c :: cs).getD (r3 % (c :: cs).length) c)
                   { gm with input := inpR })).input).node_feature,
            (M (((n :: ns).getD (r4 % (n :: ns).length) n)
                 (((c :: cs).getD (r3 % (c :: cs).length) c) { gm with input := inpR }))
               (((n :: ns).getD (r4 % (n :: ns).length) n)
                 (((c :: cs).getD (r3 % (c :: cs).length) c)
                   { gm with input := inpR })).input).graph_feature⟩) :=
  ⟨rfl, rfl⟩

/-- C2: with an accumulator supplied, `MultiviewContrast.forward` projects both
views' graph embeddings through the shared projector, scores every pair by
cosine similarity over `tau`, subtracts the mean over samples of (diagonal
entry minus log-sum-exp of the row) from the accumulator with no weight
gating, and records that value under "multiview mutual information". -/
theorem multiview_infonce_loss
    (M : GraphM → List (List ℝ) → EncOutR) (c : GraphM → GraphM)
    (cs : List (GraphM → GraphM)) (n : GraphM → GraphM)
    (ns : List (GraphM → GraphM)) (tau : ℝ) (proj : List ℝ → List ℝ)
    (gm : GraphM) (inpR : List (List ℝ)) (l : ℝ) (m : MetricMap ℝ)
    (r1 r2 r3 r4 : ℕ) :
    (let g0 : GraphM := { gm with input := inpR }
     let g1 : GraphM := ((n :: ns).getD (r2 % (n :: ns).length) n)
       (((c :: cs).getD (r1 % (c :: cs).length) c) g0)
     let g2 : GraphM := ((n :: ns).getD (r4 % (n :: ns).length) n)
       (((c :: cs).getD (r3 % (c :: cs).length) c) g0)
     let xp : List (List ℝ) := (M g1 g1.input).graph_feature.map proj
     let yp : List (List ℝ) := (M g2 g2.input).graph_feature.map proj
     (MultiviewContrast.forward ⟨M, c :: cs, n :: ns, tau, proj⟩ gm inpR
         (some l) (some m) (r1, r2, r3, r4) =
       .ok (⟨(M g1 g1.input).node_feature, (M g1 g1.input).graph_feature,
             (M g2 g2.input).node_feature, (M g2 g2.input).graph_feature⟩,
            some (l - multiviewMutualInfo xp yp tau),
            some (("multiview mutual information",
                   multiviewMutualInfo xp yp tau) :: m))) ∧
     multiviewMutualInfo xp yp tau =
       listMean ((List.range xp.length).map (fun i =>
         cosineSimilarity (xp.getD i []) (yp.getD i []) / tau -
           logsumexp (yp.map (fun yj => cosineSimilarity (xp.getD i []) yj / tau))))) :=
  ⟨rfl, multiviewMutualInfo_eq _ _ _⟩

/-- C10: with no accumulator supplied, `InfoGraph.forward` is a pure
pass-through of the primary encoder (metric state untouched, result
independent of the unsupervised encoder and both estimators), and
`MultiviewContrast.forward` only encodes the two augmented views (metric state
untouched, result independent of the projector and the temperature). -/
theorem no_loss_no_side_effects
    (selfI : InfoGraph) (U' : GraphI → List (List ℚ) → EncOutQ)
    (tmi' : List (List ℚ) → List (List ℚ) → ℚ)
    (umi' : List (List ℚ) → List (List ℚ) → List (ℕ × ℕ) → ℚ)
    (g : GraphI) (inp : List (List ℚ)) (mtI : Option (MetricMap ℚ))
    (M : GraphM → List (List ℝ) → EncOutR) (c : GraphM → GraphM)
    (cs : List (GraphM → GraphM)) (n : GraphM → GraphM)
    (ns : List (GraphM → GraphM)) (tau tau' : ℝ) (proj proj' : List ℝ → List ℝ)
    (gm : GraphM) (inpR : List (List ℝ)) (mtR : Option (MetricMap ℝ))
    (r1 r2 r3 r4 : ℕ) :
    (let g0 : GraphM := { gm with input := inpR }
     let g1 : GraphM := ((n :: ns).getD (r2 % (n :: ns).length) n)
       (((c :: cs).getD (r1 % (c :: cs).length) c) g0)
     let g2 : GraphM := ((n :: ns).getD (r4 % (n :: ns).length) n)
       (((c :: cs).getD (r3 % (c :: cs).length) c) g0)
     (InfoGraph.forward selfI g inp none mtI = .ok (selfI.model g inp, none, mtI)) ∧
     (InfoGraph.forward ⟨selfI.model, U', tmi', umi', selfI.loss_weight,
         selfI.separate_model⟩ g inp none mtI =
       InfoGraph.forward selfI g inp none mtI) ∧
     (MultiviewContrast.forward ⟨M, c :: cs, n :: ns, tau, proj⟩ gm inpR none mtR
         (r1, r2, r3, r4) =
       .ok (⟨(M g1 g1.input).node_feature, (M g1 g1.input).graph_feature,
             (M g2 g2.input).node_feature, (M g2 g2.input).graph_feature⟩,
            none, mtR)) ∧
     (MultiviewContrast.forward ⟨M, c :: cs, n :: ns, tau', proj'⟩ gm inpR none mtR
         (r1, r2, r3, r4) =
       MultiviewContrast.forward ⟨M, c :: cs, n :: ns, tau, proj⟩ gm inpR none mtR
         (r1, r2, r3, r4))) :=
  ⟨rfl, rfl, rfl, rfl⟩

/-- Every success of `MultiviewContrast.forward` returns exactly the encoder
outputs of the two augmented views. -/
theorem multiview_forward_ok_out
    (M : GraphM → List (List ℝ) → EncOutR) (c : GraphM → GraphM)
    (cs : List (GraphM → GraphM)) (n : GraphM → GraphM)
    (ns : List (GraphM → GraphM)) (tau : ℝ) (proj : List ℝ → List ℝ)
    (gm : GraphM) (inpR : List (List ℝ)) (alR : Option ℝ)
    (mtR : Option (MetricMap ℝ)) (r1 r2 r3 r4 : ℕ)
    (outM : MVOut) (lM : Option ℝ) (mM : Option (MetricMap ℝ))
    (h : MultiviewContrast.forward ⟨M, c :: cs, n :: ns, tau, proj⟩ gm inpR alR mtR
        (r1, r2, r3, r4) = .ok (outM, lM, mM)) :
    (let g0 : GraphM := { gm with input := inpR }
     let g1 : GraphM := ((n :: ns).getD (r2 % (n :: ns).length) n)
       (((c :: cs).getD (r1 % (c :: cs).length) c) g0)
     let g2 : GraphM := ((n :: ns).getD (r4 % (n :: ns).length) n)
       (((c :: cs).getD (r3 % (c :: cs).length) c) g0)
     outM = ⟨(M g1 g1.input).node_feature, (M g1 g1.input).graph_feature,
             (M g2 g2.input).node_feature, (M g2 g2.input).graph_feature⟩) := by
  cases alR with
  | none =>
    rw [show MultiviewContrast.forward ⟨M, c :: cs, n :: ns, tau, proj⟩ gm inpR
        none mtR (r1, r2, r3, r4) = .ok (_, none, mtR) from rfl] at h
    simp only [Except.ok.injEq, Prod.mk.injEq] at h
    exact h.1.symm
  | some lr =>
    cases mtR with
    | none =>
      rw [show MultiviewContrast.forward ⟨M, c :: cs, n :: ns, tau, proj⟩ gm inpR
          (some lr) none (r1, r2, r3, r4) =
          .error "TypeError: NoneType object does not support item assignment"
          from rfl] at h
      simp at h
    | some m0 =>
      rw [show MultiviewContrast.forward ⟨M, c :: cs, n :: ns, tau, proj⟩ gm inpR
          (some lr) (some m0) (r1, r2, r3, r4) = .ok (_, _, _) from rfl] at h
      simp only [Except.ok.injEq, Prod.mk.injEq] at h
      exact h.1.symm

/-- C8 (amended): under the encoder shape contract, an `InfoGraph.forward`
result has one node-feature row per node and one graph-feature row per graph
of the batch (`V` and `n`), while a `MultiviewContrast.forward` result has
one row per node and per graph of each augmented view — counts that coincide
with `V` and `n` only when the sampled crop and noise functions preserve
them. -/
theorem feature_rows_amended
    (selfI : InfoGraph) (g : GraphI) (inp : List (List ℚ)) (al : Option ℚ)
    (mt : Option (MetricMap ℚ)) (out : EncOutQ) (l : Option ℚ)
    (m : Option (MetricMap ℚ))
    (hM : ∀ (g' : GraphI) (i' : List (List ℚ)),
      ((selfI.model g' i').node_feature.length = g'.num_node) ∧
      ((selfI.model g' i').graph_feature.length = g'.num_graph))
    (hI : selfI.forward g inp al mt = .ok (out, l, m))
    (M : GraphM → List (List ℝ) → EncOutR) (c : GraphM → GraphM)
    (cs : List (GraphM → GraphM)) (n : GraphM → GraphM)
    (ns : List (GraphM → GraphM)) (tau : ℝ) (proj : List ℝ → List ℝ)
    (gm : GraphM) (inpR : List (List ℝ)) (alR : Option ℝ)
    (mtR : Option (MetricMap ℝ)) (r1 r2 r3 r4 : ℕ)
    (outM : MVOut) (lM : Option ℝ) (mM : Option (MetricMap ℝ))
    (hMr : ∀ (g' : GraphM) (i' : List (List ℝ)),
      ((M g' i').node_feature.length = g'.num_node) ∧
      ((M g' i').graph_feature.length = g'.num_graph))
    (hMv : MultiviewContrast.forward ⟨M, c :: cs, n :: ns, tau, proj⟩ gm inpR alR mtR
        (r1, r2, r3, r4) = .ok (outM, lM, mM)) :
    (let g0 : GraphM := { gm with input := inpR }
     let g1 : GraphM := ((n :: ns).getD (r2 % (n :: ns).length) n)
       (((c :: cs).getD (r1 % (c :: cs).length) c) g0)
     let g2 : GraphM := ((n :: ns).getD (r4 % (n :: ns).length) n)
       (((c :: cs).getD (r3 % (c :: cs).length) c) g0)
     (out.node_feature.length = g.num_node ∧
      out.graph_feature.length = g.num_graph) ∧
     (outM.node_feature1.length = g1.num_node ∧
      outM.graph_feature1.length = g1.num_graph ∧
      outM.node_feature2.length = g2.num_node ∧
      outM.graph_feature2.length = g2.num_graph)) := by
  have ho : out = selfI.model g inp :=
    forward_ok_output selfI g inp al mt out l m hI
  have hv := multiview_forward_ok_out M c cs n ns tau proj gm inpR alR mtR
    r1 r2 r3 r4 outM lM mM hMv
  refine ⟨?_, ?_⟩
  · rw [ho]
    exact hM g inp
  · rw [hv]
    exact ⟨(hMr _ _).1, (hMr _ _).2, (hMr _ _).1, (hMr _ _).2⟩

theorem feature_rows_amended_witness :
    ((3 = 3 ∧ 2 = 2) ∧ (0 = 0 ∧ 1 = 1 ∧ 0 = 0 ∧ 1 = 1)) :=
  feature_rows_amended cfgStrict ⟨2, [0, 0, 1]⟩ [[1], [1], [1]] none none
    ⟨[[1], [1], [1]], [[2], [2]]⟩ none none
    (by intro g' i'; simp [cfgStrict, GraphI.num_node])
    (by rfl)
    cexModel cexCrop [] id [] 1 id cexGraph [[]] none none 0 0 0 0
    ⟨[], [[]], [], [[]]⟩ none none
    (by intro g' i'; simp [cexModel, GraphM.num_node])
    (by rfl)

/-- C8 is false as frozen: `cexModel` honours the encoder shape contract, yet
on a one-node batch (`V = 1`) whose sampled crop drops every node, the
returned `node_feature1` has `0` rows, not `V`. -/
theorem feature_rows_counterexample :
    (∀ (g' : GraphM) (i' : List (List ℝ)),
      ((cexModel g' i').node_feature.length = g'.num_node) ∧
      ((cexModel g' i').graph_feature.length = g'.num_graph)) ∧
    (mvOut (MultiviewContrast.forward cexMV cexGraph [[]] none none
        (0, 0, 0, 0))).map (fun o => o.node_feature1.length) = some 0 ∧
    cexGraph.num_node = 1 ∧ (0 : ℕ) ≠ 1 := by
  refine ⟨?_, by rfl, by rfl, by decide⟩
  intro g' i'
  simp [cexModel, GraphM.num_node]

end Infograph
